import Mathlib

/-!
Verification of the reputation scoring engine of the agent-identity-protocol
repository (services/reputation.ts and routes/reputation.ts), shallowly
embedded over exact rational arithmetic.
-/

set_option maxHeartbeats 1000000

namespace Reputation

/-- Review rating enum (`POSITIVE | NEUTRAL | NEGATIVE`). -/
inductive Rating where
  | POSITIVE
  | NEUTRAL
  | NEGATIVE
  deriving DecidableEq, Repr

/-- A community review row (fields relevant to scoring; `rating` is the only
field the calculator reads). -/
structure Review where
  id : Nat
  rating : Rating
  comment : Option String
  reviewerId : Option String
  createdAt : Nat
  deriving DecidableEq, Repr

/-- The agent's latest self-reported metrics snapshot; every column is nullable
in the schema, hence `Option`. -/
structure MetricsSnapshot where
  successRate : Option ℚ
  uptime30d : Option ℚ
  avgResponseTimeMs : Option ℚ
  deriving DecidableEq, Repr

/-- The stored reputation score row. -/
structure ReputationScore where
  overallScore : ℚ
  performanceScore : ℚ
  reliabilityScore : ℚ
  communityScore : ℚ
  totalReviews : Nat
  positiveReviews : Nat
  neutralReviews : Nat
  negativeReviews : Nat
  lastCalculatedAt : Nat
  deriving DecidableEq, Repr

/-- JavaScript `x || d` on an optional numeric value: the default is taken both
when the value is absent (`null`/`undefined`) and when it equals `0` (falsy). -/
def jsOr (o : Option ℚ) (d : ℚ) : ℚ :=
  match o with
  | none => d
  | some v => if v = 0 then d else v

/-- The latency sub-term of the performance component
(`responseComponent` in `calculateReputationScore`):
`0.2` for `t <= 500`; `0.2 * (1 - (t-500)/1500)` for `500 < t <= 2000`;
`0.2 * max(0, 1 - (t-2000)/3000)` for `t > 2000`. -/
def responseComponent (t : ℚ) : ℚ :=
  if t ≤ 500 then 0.2
  else if t ≤ 2000 then 0.2 * (1 - (t - 500) / 1500)
  else 0.2 * max 0 (1 - (t - 2000) / 3000)

/-- Performance component: default `0.5` with no snapshot, otherwise
`min 1 (successRate*0.5 + uptime*0.3 + responseComponent)` with falsy
defaults `successRate || 0`, `uptime30d || 0`, `avgResponseTimeMs || 1000`. -/
def performanceScoreOf (metrics : Option MetricsSnapshot) : ℚ :=
  match metrics with
  | none => 0.5
  | some m =>
    let successRate := jsOr m.successRate 0
    let uptime := jsOr m.uptime30d 0
    let responseTime := jsOr m.avgResponseTimeMs 1000
    min 1 (successRate * 0.5 + uptime * 0.3 + responseComponent responseTime)

/-- Reliability component: `agent.metrics?.uptime30d || 0.5`. -/
def reliabilityScoreOf (metrics : Option MetricsSnapshot) : ℚ :=
  jsOr (metrics.bind (fun m => m.uptime30d)) 0.5

/-- `agent.reviews.filter((r) => r.rating === 'POSITIVE').length` -/
def positiveCount (rs : List Review) : Nat :=
  (rs.filter (fun r => decide (r.rating = Rating.POSITIVE))).length

/-- `agent.reviews.filter((r) => r.rating === 'NEUTRAL').length` -/
def neutralCount (rs : List Review) : Nat :=
  (rs.filter (fun r => decide (r.rating = Rating.NEUTRAL))).length

/-- `agent.reviews.filter((r) => r.rating === 'NEGATIVE').length` -/
def negativeCount (rs : List Review) : Nat :=
  (rs.filter (fun r => decide (r.rating = Rating.NEGATIVE))).length

/-- Community component: `0.5` with zero reviews; otherwise the clamped
normalized balance `max 0 (min 1 ((pos-neg)/total + 1)/2)`, dampened toward
`0.5` by `total/5` when fewer than 5 reviews exist. -/
def communityScoreOf (rs : List Review) : ℚ :=
  let totalReviews := rs.length
  if 0 < totalReviews then
    let reviewScore : ℚ :=
      ((positiveCount rs : ℚ) - (negativeCount rs : ℚ)) / (totalReviews : ℚ)
    let c := max 0 (min 1 ((reviewScore + 1) / 2))
    if totalReviews < 5 then 0.5 + (c - 0.5) * ((totalReviews : ℚ) / 5)
    else c
  else 0.5

/-- The pure score computation in `calculateReputationScore`: from the current
metrics snapshot and full review list to the stored tuple; `now` is the wall
clock at the upsert (`new Date()`). -/
def computeScore (metrics : Option MetricsSnapshot) (rs : List Review)
    (now : Nat) : ReputationScore :=
  { overallScore :=
      performanceScoreOf metrics * 0.4 + reliabilityScoreOf metrics * 0.3 +
        communityScoreOf rs * 0.3
    performanceScore := performanceScoreOf metrics
    reliabilityScore := reliabilityScoreOf metrics
    communityScore := communityScoreOf rs
    totalReviews := rs.length
    positiveReviews := positiveCount rs
    neutralReviews := neutralCount rs
    negativeReviews := negativeCount rs
    lastCalculatedAt := now }

/-- The persistence state visible to the reputation engine: which agents
exist, each agent's metrics snapshot, review list and stored score row. -/
structure DB where
  agents : List String
  metrics : String → Option MetricsSnapshot
  reviews : String → List Review
  scores : String → Option ReputationScore

/-- `prisma.reputationScore.upsert`: insert or overwrite the one score row of
the agent. -/
def upsertScore (db : DB) (agentId : String) (s : ReputationScore) : DB :=
  { db with scores := fun x => if x = agentId then some s else db.scores x }

/-- The body of `calculateReputationScore`'s `try` block. `fault = true`
models an unexpected persistence failure thrown by the read inside the
calculation; otherwise: load the agent, return early (no write) when it does
not exist, else compute the tuple and upsert it. -/
def calcBody (fault : Bool) (db : DB) (agentId : String) (now : Nat) :
    Except String DB :=
  if fault then Except.error "persistence read failure"
  else if agentId ∈ db.agents then
    Except.ok (upsertScore db agentId
      (computeScore (db.metrics agentId) (db.reviews agentId) now))
  else Except.ok db

/-- `calculateReputationScore(agentId)`: the whole body sits in a
`try { ... } catch { logger.error(...) }`, so every fault is caught and
logged and the returned promise resolves; on a caught fault nothing is
written. -/
def calculateReputationScore (fault : Bool) (db : DB) (agentId : String)
    (now : Nat) : Except String DB :=
  match calcBody fault db agentId now with
  | Except.ok db' => Except.ok db'
  | Except.error _ => Except.ok db

/-- The state after awaiting `calculateReputationScore` (which always
resolves). -/
def runCalc (fault : Bool) (db : DB) (agentId : String) (now : Nat) : DB :=
  match calculateReputationScore fault db agentId now with
  | Except.ok db' => db'
  | Except.error _ => db

/-- `recalculateAllReputationScores()`: iterate over all agents, wrapping each
`calculateReputationScore` call in `try { success++ } catch { failed++ }`;
returns the final state with the `success` and `failed` counters. -/
def recalculateAllReputationScores (fault : Bool) (db : DB) (now : Nat) :
    DB × Nat × Nat :=
  db.agents.foldl
    (fun acc agentId =>
      match calculateReputationScore fault acc.1 agentId now with
      | Except.ok db' => (db', acc.2.1 + 1, acc.2.2)
      | Except.error _ => (acc.1, acc.2.1, acc.2.2 + 1))
    (db, 0, 0)

/-- Outcome of an express route handler: a JSON response with the new state,
a 404 via `NotFoundError`, a 400 via zod validation, or a 500 when an
uncaught error reaches `next(error)`. -/
inductive HandlerResult (α : Type) where
  | ok (value : α) (db : DB)
  | notFound (msg : String)
  | validationError (msg : String)
  | serverError (msg : String)

/-- The JSON body a successful handler returned, if any. -/
def HandlerResult.response {α : Type} : HandlerResult α → Option α
  | HandlerResult.ok v _ => some v
  | _ => none

/-- Body of the `GET /reputation/agents/:id/score` response. -/
structure ScoreResponse where
  overallScore : ℚ
  performanceScore : ℚ
  reliabilityScore : ℚ
  communityScore : ℚ
  totalReviews : Nat
  breakdownPositive : Nat
  breakdownNeutral : Nat
  breakdownNegative : Nat
  lastCalculatedAt : Nat
  deriving DecidableEq, Repr

/-- Render a stored score row as the score-query response body. -/
def renderScore (s : ReputationScore) : ScoreResponse :=
  { overallScore := s.overallScore
    performanceScore := s.performanceScore
    reliabilityScore := s.reliabilityScore
    communityScore := s.communityScore
    totalReviews := s.totalReviews
    breakdownPositive := s.positiveReviews
    breakdownNeutral := s.neutralReviews
    breakdownNegative := s.negativeReviews
    lastCalculatedAt := s.lastCalculatedAt }

/-- `GET /reputation/agents/:id/score`: return the stored score; when none
exists, synchronously await `calculateReputationScore`, re-read, and answer
404 when still no row exists (the calculation wrote nothing). A rejection of
the awaited call would reach `next(error)` as a 500. `fault` models a
persistence failure inside the score calculation. -/
def getScoreHandler (fault : Bool) (db : DB) (agentId : String) (now : Nat) :
    HandlerResult ScoreResponse :=
  match db.scores agentId with
  | some s => HandlerResult.ok (renderScore s) db
  | none =>
    match calculateReputationScore fault db agentId now with
    | Except.error e => HandlerResult.serverError e
    | Except.ok db' =>
      match db'.scores agentId with
      | none => HandlerResult.notFound "Agent not found"
      | some s => HandlerResult.ok (renderScore s) db'

/-- Body of the `POST /reputation/agents/:id/recalculate` response: the
four components of the freshly read score row, or `none` when no row exists. -/
structure RecalcResponse where
  score : Option (ℚ × ℚ × ℚ × ℚ)
  deriving DecidableEq, Repr

/-- `POST /reputation/agents/:id/recalculate`: 404 when the agent does not
exist, else synchronously await `calculateReputationScore`, then re-read the
score row and answer 200 with it (or with `score: null`). A rejection of the
awaited call would reach `next(error)` as a 500. -/
def recalculateHandler (fault : Bool) (db : DB) (agentId : String)
    (now : Nat) : HandlerResult RecalcResponse :=
  if agentId ∈ db.agents then
    match calculateReputationScore fault db agentId now with
    | Except.error e => HandlerResult.serverError e
    | Except.ok db' =>
      HandlerResult.ok
        { score := (db'.scores agentId).map (fun s =>
            (s.overallScore, s.performanceScore, s.reliabilityScore,
              s.communityScore)) }
        db'
  else HandlerResult.notFound "Agent not found"

/-- Body of the `POST /reputation/agents/:id/reviews` 201 response. -/
structure ReviewResponse where
  id : Nat
  rating : Rating
  createdAt : Nat
  deriving DecidableEq, Repr

/-- The review-submission handler body after zod validation passed: 404 for
an unknown agent, persist the review, dispatch `calculateReputationScore`
fire-and-forget (`.catch` logs; the 201 response never depends on its
outcome), respond 201 with the created review. -/
def submitReviewValidated (fault : Bool) (db : DB) (agentId : String)
    (rating : Rating) (comment : Option String) (now : Nat) :
    HandlerResult ReviewResponse :=
  if agentId ∈ db.agents then
    let review : Review :=
      { id := (db.reviews agentId).length, rating := rating,
        comment := comment, reviewerId := none, createdAt := now }
    let db1 : DB :=
      { db with reviews := fun x =>
          if x = agentId then db.reviews x ++ [review] else db.reviews x }
    let db2 := runCalc fault db1 agentId now
    HandlerResult.ok
      { id := review.id, rating := review.rating,
        createdAt := review.createdAt } db2
  else HandlerResult.notFound "Agent not found"

/-- `POST /reputation/agents/:id/reviews`: zod validation of the body
(`comment` at most 1000 characters), then the validated body. -/
def submitReviewHandler (fault : Bool) (db : DB) (agentId : String)
    (rating : Rating) (comment : Option String) (now : Nat) :
    HandlerResult ReviewResponse :=
  match comment with
  | some c => if 1000 < c.length then
      HandlerResult.validationError "comment too long"
    else submitReviewValidated fault db agentId rating comment now
  | none => submitReviewValidated fault db agentId rating comment now

/-- Test fixture: a single POSITIVE review. -/
def posReview : Review :=
  { id := 0, rating := Rating.POSITIVE, comment := none, reviewerId := none,
    createdAt := 0 }

/-- Test fixture: an in-range metrics snapshot. -/
def goodMetrics : MetricsSnapshot :=
  { successRate := some (9/10), uptime30d := some (19/20),
    avgResponseTimeMs := some 300 }

/-- Test fixture: a snapshot whose `uptime30d` is present and equals 0. -/
def zeroUptimeMetrics : MetricsSnapshot :=
  { successRate := none, uptime30d := some 0, avgResponseTimeMs := none }

/-- Test fixture: a snapshot whose `avgResponseTimeMs` is present and
equals 0. -/
def zeroLatencyMetrics : MetricsSnapshot :=
  { successRate := none, uptime30d := none, avgResponseTimeMs := some 0 }

/-- Test fixture for C10: a one-agent state. -/
def dbLazy10 : DB :=
  { agents := ["a"], metrics := fun _ => none, reviews := fun _ => [],
    scores := fun _ => none }

/-- Test fixture for C7: one agent with no metrics, no reviews and no stored
score. -/
def dbLazy : DB :=
  { agents := ["a"], metrics := fun _ => none, reviews := fun _ => [],
    scores := fun _ => none }

/-- Test fixture for C9: one agent with a metrics snapshot and one review. -/
def dbIdem : DB :=
  { agents := ["a"], metrics := fun _ => some goodMetrics,
    reviews := fun _ => [posReview], scores := fun _ => none }

/-- Test fixture for C2: one agent holding a previously stored (stale) score
row. -/
def dbStale : DB :=
  { agents := ["a"], metrics := fun _ => none, reviews := fun _ => [],
    scores := fun x => if x = "a" then some
      { overallScore := 0.5, performanceScore := 0.5, reliabilityScore := 0.5,
        communityScore := 0.5, totalReviews := 0, positiveReviews := 0,
        neutralReviews := 0, negativeReviews := 0, lastCalculatedAt := 0 }
      else none }

/-- Test fixture for C2's witness: one agent with no stored score. -/
def dbFresh : DB :=
  { agents := ["a"], metrics := fun _ => none, reviews := fun _ => [],
    scores := fun _ => none }

/-! ### Helper lemmas -/

@[simp]
lemma decide_rating_refl (a : Rating) : decide (a = a) = true := by
  cases a <;> rfl

@[simp]
lemma decide_pos_neu : decide (Rating.POSITIVE = Rating.NEUTRAL) = false := rfl

@[simp]
lemma decide_pos_neg : decide (Rating.POSITIVE = Rating.NEGATIVE) = false := rfl

@[simp]
lemma decide_neu_pos : decide (Rating.NEUTRAL = Rating.POSITIVE) = false := rfl

@[simp]
lemma decide_neu_neg : decide (Rating.NEUTRAL = Rating.NEGATIVE) = false := rfl

@[simp]
lemma decide_neg_pos : decide (Rating.NEGATIVE = Rating.POSITIVE) = false := rfl

@[simp]
lemma decide_neg_neu : decide (Rating.NEGATIVE = Rating.NEUTRAL) = false := rfl

lemma responseComponent_mem (t : ℚ) :
    0 ≤ responseComponent t ∧ responseComponent t ≤ 0.2 := by
  unfold responseComponent
  split
  · norm_num
  · split
    · rename_i h1 h2
      have hx1 : (t - 500) / 1500 ≤ 1 := by
        rw [div_le_one (by norm_num : (0:ℚ) < 1500)]; linarith
      have hx0 : 0 ≤ (t - 500) / 1500 :=
        div_nonneg (by push_neg at h1; linarith) (by norm_num)
      constructor
      · have : (0:ℚ) ≤ 1 - (t - 500) / 1500 := by linarith
        have := mul_nonneg (by norm_num : (0:ℚ) ≤ 0.2) this
        linarith
      · nlinarith
    · rename_i h1 h2
      have hm0 : (0:ℚ) ≤ max 0 (1 - (t - 2000) / 3000) := le_max_left _ _
      have hm1 : max 0 (1 - (t - 2000) / 3000) ≤ 1 := by
        apply max_le (by norm_num)
        have : 0 ≤ (t - 2000) / 3000 :=
          div_nonneg (by push_neg at h2; linarith) (by norm_num)
        linarith
      constructor
      · positivity
      · nlinarith

lemma communityScoreOf_mem (rs : List Review) :
    0 ≤ communityScoreOf rs ∧ communityScoreOf rs ≤ 1 := by
  unfold communityScoreOf
  by_cases hpos : 0 < rs.length
  · simp only [hpos, if_true]
    set x : ℚ :=
      ((((positiveCount rs : ℚ) - (negativeCount rs : ℚ)) / (rs.length : ℚ)) + 1) / 2
      with hx
    have hc0 : (0:ℚ) ≤ max 0 (min 1 x) := le_max_left _ _
    have hc1 : max 0 (min 1 x) ≤ 1 := max_le (by norm_num) (min_le_left _ _)
    by_cases hlt : rs.length < 5
    · simp only [hlt, if_true]
      have hf0 : (0:ℚ) ≤ (rs.length : ℚ) / 5 := by positivity
      have hf1 : (rs.length : ℚ) / 5 ≤ 1 := by
        rw [div_le_one (by norm_num : (0:ℚ) < 5)]
        exact_mod_cast Nat.le_of_lt_succ (by omega)
      constructor
      · nlinarith
      · nlinarith
    · simp only [hlt, if_false]
      exact ⟨hc0, hc1⟩
  · simp only [hpos, if_false]
    norm_num

lemma jsOr_nonneg (o : Option ℚ) (d : ℚ) (hd : 0 ≤ d)
    (ho : ∀ v, o = some v → 0 ≤ v) : 0 ≤ jsOr o d := by
  unfold jsOr
  match o with
  | none => exact hd
  | some v =>
    simp only
    split
    · exact hd
    · exact ho v rfl

lemma performanceScoreOf_mem (m : Option MetricsSnapshot)
    (hs : ∀ x v, m = some x → x.successRate = some v → 0 ≤ v)
    (hu : ∀ x v, m = some x → x.uptime30d = some v → 0 ≤ v) :
    0 ≤ performanceScoreOf m ∧ performanceScoreOf m ≤ 1 := by
  unfold performanceScoreOf
  match m with
  | none => norm_num
  | some x =>
    simp only
    have h1 : 0 ≤ jsOr x.successRate 0 :=
      jsOr_nonneg _ _ le_rfl (fun v hv => hs x v rfl hv)
    have h2 : 0 ≤ jsOr x.uptime30d 0 :=
      jsOr_nonneg _ _ le_rfl (fun v hv => hu x v rfl hv)
    have h3 := responseComponent_mem (jsOr x.avgResponseTimeMs 1000)
    constructor
    · apply le_min (by norm_num)
      nlinarith [h3.1]
    · exact min_le_left _ _

lemma reliabilityScoreOf_mem (m : Option MetricsSnapshot)
    (hu : ∀ x v, m = some x → x.uptime30d = some v → 0 ≤ v ∧ v ≤ 1) :
    0 ≤ reliabilityScoreOf m ∧ reliabilityScoreOf m ≤ 1 := by
  unfold reliabilityScoreOf jsOr
  match m with
  | none => norm_num [Option.bind]
  | some x =>
    simp only [Option.bind]
    match hx : x.uptime30d with
    | none => norm_num
    | some v =>
      simp only
      split
      · norm_num
      · exact hu x v rfl hx

lemma normalized_mem (rs : List Review) (h : 1 ≤ rs.length) :
    0 ≤ (((positiveCount rs : ℚ) - (negativeCount rs : ℚ)) / (rs.length : ℚ) + 1) / 2 ∧
      (((positiveCount rs : ℚ) - (negativeCount rs : ℚ)) / (rs.length : ℚ) + 1) / 2 ≤ 1 := by
  have hp : positiveCount rs ≤ rs.length := List.length_filter_le _ _
  have hn : negativeCount rs ≤ rs.length := List.length_filter_le _ _
  have hpq : (positiveCount rs : ℚ) ≤ (rs.length : ℚ) := by exact_mod_cast hp
  have hnq : (negativeCount rs : ℚ) ≤ (rs.length : ℚ) := by exact_mod_cast hn
  have hp0 : (0:ℚ) ≤ (positiveCount rs : ℚ) := by positivity
  have hn0 : (0:ℚ) ≤ (negativeCount rs : ℚ) := by positivity
  have hl : (0:ℚ) < (rs.length : ℚ) := by exact_mod_cast h
  have hub : ((positiveCount rs : ℚ) - (negativeCount rs : ℚ)) / (rs.length : ℚ) ≤ 1 := by
    rw [div_le_one hl]; linarith
  have hlb : (-1 : ℚ) ≤ ((positiveCount rs : ℚ) - (negativeCount rs : ℚ)) / (rs.length : ℚ) := by
    rw [le_div_iff hl]; linarith
  constructor <;> linarith

lemma length_eq_counts (rs : List Review) :
    rs.length = positiveCount rs + neutralCount rs + negativeCount rs := by
  induction rs with
  | nil => rfl
  | cons r t ih =>
    unfold positiveCount neutralCount negativeCount at ih ⊢
    cases h : r.rating <;>
      simp [List.filter_cons, h, List.length_cons] <;> omega

lemma calc_ok (fault : Bool) (db : DB) (agentId : String) (now : Nat) :
    ∃ db', calculateReputationScore fault db agentId now = Except.ok db' := by
  unfold calculateReputationScore
  cases h : calcBody fault db agentId now with
  | ok db' => exact ⟨db', rfl⟩
  | error e => exact ⟨db, rfl⟩

lemma calc_spec (db : DB) (agentId : String) (now : Nat)
    (h : agentId ∈ db.agents) :
    calculateReputationScore false db agentId now =
      Except.ok (upsertScore db agentId
        (computeScore (db.metrics agentId) (db.reviews agentId) now)) := by
  unfold calculateReputationScore calcBody
  simp [h]

lemma calc_fault (db : DB) (agentId : String) (now : Nat) :
    calculateReputationScore true db agentId now = Except.ok db := by
  unfold calculateReputationScore calcBody
  simp

lemma runCalc_spec (db : DB) (agentId : String) (now : Nat)
    (h : agentId ∈ db.agents) :
    runCalc false db agentId now =
      upsertScore db agentId
        (computeScore (db.metrics agentId) (db.reviews agentId) now) := by
  unfold runCalc
  rw [calc_spec db agentId now h]

lemma upsertScore_scores_self (db : DB) (agentId : String)
    (s : ReputationScore) : (upsertScore db agentId s).scores agentId = some s := by
  simp [upsertScore]

lemma recalcAll_fold (fault : Bool) (now : Nat) :
    ∀ (l : List String) (acc : DB × Nat × Nat),
      ((l.foldl (fun acc agentId =>
          match calculateReputationScore fault acc.1 agentId now with
          | Except.ok db' => (db', acc.2.1 + 1, acc.2.2)
          | Except.error _ => (acc.1, acc.2.1, acc.2.2 + 1)) acc).2.1 =
        acc.2.1 + l.length) ∧
      ((l.foldl (fun acc agentId =>
          match calculateReputationScore fault acc.1 agentId now with
          | Except.ok db' => (db', acc.2.1 + 1, acc.2.2)
          | Except.error _ => (acc.1, acc.2.1, acc.2.2 + 1)) acc).2.2 =
        acc.2.2) := by
  intro l
  induction l with
  | nil => intro acc; simp
  | cons a t ih =>
    intro acc
    obtain ⟨db', hdb'⟩ := calc_ok fault acc.1 a now
    simp only [List.foldl_cons, hdb', List.length_cons]
    have h := ih (db', acc.2.1 + 1, acc.2.2)
    have h1 : (db', acc.2.1 + 1, acc.2.2).2.1 = acc.2.1 + 1 := rfl
    have h2 : (db', acc.2.1 + 1, acc.2.2).2.2 = acc.2.2 := rfl
    rw [h1] at h
    rw [h2] at h
    exact ⟨h.1.trans (by omega), h.2⟩

/-! ### Claims -/

/-- C1: the claim states the latency term is 0.2 at `avgResponseTimeMs = 500`,
0.1 at 2000 (with the two segments meeting continuously) and 0 at 5000. The
code gives 0.2 at 500 and 0 at 5000, but at 2000 the middle segment
`0.2 * (1 - (2000-500)/1500)` evaluates to 0, not 0.1 — the function jumps
from 0 back up toward 0.2 just above 2000, contradicting the source's own
comment `500-2000ms = 0.5-1.0, >2000ms = 0-0.5`. This theorem evaluates the
embedded latency term at the three claimed boundary points. -/
theorem C1_latencyTermBoundaryValues :
    responseComponent 500 = 0.2 ∧ responseComponent 2000 = 0 ∧
      responseComponent 5000 = 0 := by
  refine ⟨?_, ?_, ?_⟩ <;> norm_num [responseComponent]

/-- C3 counterexample: with a metrics snapshot present and carrying
`uptime30d = 0`, the claim demands `reliabilityScore = 0`; the code computes
`agent.metrics?.uptime30d || 0.5`, and `0` is falsy in JavaScript, so the
stored reliability score is 0.5, not 0. -/
theorem C3_reliabilityAtZeroUptime :
    (computeScore (some zeroUptimeMetrics) [] 0).reliabilityScore = 0.5 ∧
      (0.5 : ℚ) ≠ 0 := by
  constructor
  · norm_num [computeScore, reliabilityScoreOf, jsOr, Option.bind,
      zeroUptimeMetrics]
  · norm_num

/-- C3 (amended): the reliability score equals the snapshot's `uptime30d`
whenever that value is present and nonzero; it is 0.5 when the snapshot or
the `uptime30d` value is absent, and also when `uptime30d` is present but
equals 0 (JavaScript falsy default). -/
theorem C3_reliabilityScoreAmended (m : Option MetricsSnapshot)
    (rs : List Review) (now : Nat) :
    (∀ x u, m = some x → x.uptime30d = some u → u ≠ 0 →
      (computeScore m rs now).reliabilityScore = u) ∧
    (m.bind (fun x => x.uptime30d) = none →
      (computeScore m rs now).reliabilityScore = 0.5) ∧
    (∀ x, m = some x → x.uptime30d = some 0 →
      (computeScore m rs now).reliabilityScore = 0.5) := by
  refine ⟨?_, ?_, ?_⟩
  · rintro x u rfl hu hne
    simp [computeScore, reliabilityScoreOf, jsOr, Option.bind, hu, hne]
  · intro hnone
    simp [computeScore, reliabilityScoreOf, jsOr, hnone]
  · rintro x rfl hu
    simp [computeScore, reliabilityScoreOf, jsOr, Option.bind, hu]

/-- Witness for C3's amended theorem at a concrete snapshot with
`uptime30d = 3/4`. -/
theorem C3_reliabilityScoreAmended_witness :
    (computeScore (some goodMetrics) [] 0).reliabilityScore = 19/20 :=
  (C3_reliabilityScoreAmended _ [] 0).1 _ (19/20) rfl rfl (by norm_num)

/-- C4: the claim states the default `t = 1000` is used only when
`avgResponseTimeMs` is absent, so a present `t = 0` yields the full 0.2. The
code computes `agent.metrics.avgResponseTimeMs || 1000`, and `0` is falsy, so
a present value 0 is replaced by 1000 and the latency term becomes
`0.2 * (1 - (1000-500)/1500) = 2/15 ≈ 0.133`, contradicting the source's own
comment `0-500ms = 1.0`. This theorem evaluates the embedded code at the
failing input: the falsy fallback, the resulting performance score, and the
value the piecewise function itself would give at 0. -/
theorem C4_latencyZeroTreatedAsAbsent :
    jsOr (some 0) 1000 = 1000 ∧
    (computeScore (some zeroLatencyMetrics) [] 0).performanceScore = 2/15 ∧
    responseComponent 0 = 0.2 := by
  refine ⟨by norm_num [jsOr], ?_, by norm_num [responseComponent]⟩
  norm_num [computeScore, performanceScoreOf, jsOr, responseComponent,
    zeroLatencyMetrics]

/-- C5: whenever the inputs satisfy the documented ranges (`successRate` and
`uptime30d` in [0,1] when present, `avgResponseTimeMs` non-negative, ratings
drawn from the three-valued enum), each of the four stored score fields lies
in [0,1], and the overall score is exactly
`performance*0.4 + reliability*0.3 + community*0.3` with no further clamp. -/
theorem C5_scoreBoundsInvariant (m : Option MetricsSnapshot)
    (rs : List Review) (now : Nat)
    (hs : ∀ x v, m = some x → x.successRate = some v → 0 ≤ v ∧ v ≤ 1)
    (hu : ∀ x v, m = some x → x.uptime30d = some v → 0 ≤ v ∧ v ≤ 1)
    (ht : ∀ x v, m = some x → x.avgResponseTimeMs = some v → 0 ≤ v) :
    (0 ≤ (computeScore m rs now).performanceScore ∧
      (computeScore m rs now).performanceScore ≤ 1) ∧
    (0 ≤ (computeScore m rs now).reliabilityScore ∧
      (computeScore m rs now).reliabilityScore ≤ 1) ∧
    (0 ≤ (computeScore m rs now).communityScore ∧
      (computeScore m rs now).communityScore ≤ 1) ∧
    (0 ≤ (computeScore m rs now).overallScore ∧
      (computeScore m rs now).overallScore ≤ 1) ∧
    (computeScore m rs now).overallScore =
      (computeScore m rs now).performanceScore * 0.4 +
        (computeScore m rs now).reliabilityScore * 0.3 +
        (computeScore m rs now).communityScore * 0.3 := by
  have hperf := performanceScoreOf_mem m
    (fun x v hx hv => (hs x v hx hv).1) (fun x v hx hv => (hu x v hx hv).1)
  have hrel := reliabilityScoreOf_mem m hu
  have hcom := communityScoreOf_mem rs
  refine ⟨hperf, hrel, hcom, ?_, rfl⟩
  have hov : (computeScore m rs now).overallScore =
      performanceScoreOf m * 0.4 + reliabilityScoreOf m * 0.3 +
        communityScoreOf rs * 0.3 := rfl
  rw [hov]
  constructor
  · nlinarith [hperf.1, hrel.1, hcom.1]
  · nlinarith [hperf.2, hrel.2, hcom.2]

/-- Witness for C5 at a concrete in-range input: the `goodMetrics` snapshot
and one positive review. -/
theorem C5_scoreBoundsInvariant_witness :
    (0 ≤ (computeScore (some goodMetrics) [posReview] 1).performanceScore ∧
      (computeScore (some goodMetrics) [posReview] 1).performanceScore ≤ 1) ∧
    (0 ≤ (computeScore (some goodMetrics) [posReview] 1).reliabilityScore ∧
      (computeScore (some goodMetrics) [posReview] 1).reliabilityScore ≤ 1) ∧
    (0 ≤ (computeScore (some goodMetrics) [posReview] 1).communityScore ∧
      (computeScore (some goodMetrics) [posReview] 1).communityScore ≤ 1) ∧
    (0 ≤ (computeScore (some goodMetrics) [posReview] 1).overallScore ∧
      (computeScore (some goodMetrics) [posReview] 1).overallScore ≤ 1) ∧
    (computeScore (some goodMetrics) [posReview] 1).overallScore =
      (computeScore (some goodMetrics) [posReview] 1).performanceScore * 0.4 +
        (computeScore (some goodMetrics) [posReview] 1).reliabilityScore * 0.3 +
        (computeScore (some goodMetrics) [posReview] 1).communityScore * 0.3 :=
  C5_scoreBoundsInvariant (some goodMetrics) [posReview] 1
    (by intro x v hx hv; injection hx with h; subst h;
        simp only [goodMetrics, Option.some.injEq] at hv; subst hv; norm_num)
    (by intro x v hx hv; injection hx with h; subst h;
        simp only [goodMetrics, Option.some.injEq] at hv; subst hv; norm_num)
    (by intro x v hx hv; injection hx with h; subst h;
        simp only [goodMetrics, Option.some.injEq] at hv; subst hv; norm_num)

/-- C6: the community component is 0.5 with zero reviews; with `n ≥ 5`
reviews it is the normalized balance `((pos - neg)/n + 1)/2`; with
`1 ≤ n < 5` it is dampened to `0.5 + (normalized - 0.5) * (n/5)`; a single
POSITIVE review yields exactly 0.6 and five POSITIVE reviews yield exactly
1. -/
theorem C6_communityScoreFormula (rs : List Review) :
    communityScoreOf [] = 0.5 ∧
    (5 ≤ rs.length →
      communityScoreOf rs =
        (((positiveCount rs : ℚ) - (negativeCount rs : ℚ)) /
          (rs.length : ℚ) + 1) / 2) ∧
    (1 ≤ rs.length → rs.length < 5 →
      communityScoreOf rs =
        0.5 + ((((positiveCount rs : ℚ) - (negativeCount rs : ℚ)) /
          (rs.length : ℚ) + 1) / 2 - 0.5) * ((rs.length : ℚ) / 5)) ∧
    communityScoreOf [posReview] = 0.6 ∧
    communityScoreOf (List.replicate 5 posReview) = 1 := by
  refine ⟨by norm_num [communityScoreOf], ?_, ?_, ?_, ?_⟩
  · intro h5
    have h1 : 1 ≤ rs.length := by omega
    have hmem := normalized_mem rs h1
    unfold communityScoreOf
    simp only [show 0 < rs.length by omega, if_true,
      show ¬rs.length < 5 by omega, if_false]
    rw [min_eq_right hmem.2, max_eq_right hmem.1]
  · intro h1 h5
    have hmem := normalized_mem rs h1
    unfold communityScoreOf
    simp only [show 0 < rs.length by omega, if_true, h5, if_true]
    rw [min_eq_right hmem.2, max_eq_right hmem.1]
  · norm_num [communityScoreOf, positiveCount, negativeCount, posReview,
      List.filter_cons]
  · norm_num [communityScoreOf, positiveCount, negativeCount, posReview,
      List.filter_cons, List.replicate]

/-- Witness for C6's dampening branch at the single-POSITIVE-review list. -/
theorem C6_communityScoreFormula_witness :
    communityScoreOf [posReview] =
      0.5 + ((((positiveCount [posReview] : ℚ) -
        (negativeCount [posReview] : ℚ)) /
        (([posReview] : List Review).length : ℚ) + 1) / 2 - 0.5) *
        ((([posReview] : List Review).length : ℚ) / 5) :=
  (C6_communityScoreFormula [posReview]).2.2.1 (by simp) (by simp)

/-- C8: the stored counts partition: `totalReviews` equals the sum of the
POSITIVE, NEUTRAL and NEGATIVE counts, each of which counts the reviews
carrying that rating. -/
theorem C8_reviewCountsPartition (m : Option MetricsSnapshot)
    (rs : List Review) (now : Nat) :
    (computeScore m rs now).positiveReviews = positiveCount rs ∧
    (computeScore m rs now).neutralReviews = neutralCount rs ∧
    (computeScore m rs now).negativeReviews = negativeCount rs ∧
    (computeScore m rs now).totalReviews =
      (computeScore m rs now).positiveReviews +
        (computeScore m rs now).neutralReviews +
        (computeScore m rs now).negativeReviews :=
  ⟨rfl, rfl, rfl, length_eq_counts rs⟩

/-- C7: a score query for an existing agent with no reviews, no metrics
snapshot and no stored score succeeds via synchronous lazy computation,
returning all four components equal to 0.5 and all counts equal to 0. -/
theorem C7_lazyFirstReadDefaults (db : DB) (a : String) (now : Nat)
    (h1 : a ∈ db.agents) (h2 : db.metrics a = none)
    (h3 : db.reviews a = []) (h4 : db.scores a = none) :
    (getScoreHandler false db a now).response = some
      { overallScore := 0.5, performanceScore := 0.5, reliabilityScore := 0.5,
        communityScore := 0.5, totalReviews := 0, breakdownPositive := 0,
        breakdownNeutral := 0, breakdownNegative := 0,
        lastCalculatedAt := now } := by
  have hcalc := calc_spec db a now h1
  rw [h2, h3] at hcalc
  unfold getScoreHandler
  rw [h4, hcalc]
  simp only [upsertScore_scores_self, HandlerResult.response]
  norm_num [renderScore, computeScore, performanceScoreOf, reliabilityScoreOf,
    communityScoreOf, positiveCount, neutralCount, negativeCount, jsOr,
    Option.bind, List.filter]

/-- Witness for C7 at the concrete one-agent state `dbLazy`. -/
theorem C7_lazyFirstReadDefaults_witness :
    (getScoreHandler false dbLazy "a" 3).response = some
      { overallScore := 0.5, performanceScore := 0.5, reliabilityScore := 0.5,
        communityScore := 0.5, totalReviews := 0, breakdownPositive := 0,
        breakdownNeutral := 0, breakdownNegative := 0,
        lastCalculatedAt := 3 } :=
  C7_lazyFirstReadDefaults dbLazy "a" 3 (by decide) rfl rfl rfl

/-- C9: running the score calculation twice for the same agent, with the
metrics snapshot and review history unchanged in between, stores tuples that
agree on all four score components and all four counts; only
`lastCalculatedAt` carries the respective calculation time. -/
theorem C9_recalculationIdempotent (db : DB) (a : String) (t1 t2 : Nat)
    (h : a ∈ db.agents) :
    ∃ s1 s2, (runCalc false db a t1).scores a = some s1 ∧
      (runCalc false (runCalc false db a t1) a t2).scores a = some s2 ∧
      s1.overallScore = s2.overallScore ∧
      s1.performanceScore = s2.performanceScore ∧
      s1.reliabilityScore = s2.reliabilityScore ∧
      s1.communityScore = s2.communityScore ∧
      s1.totalReviews = s2.totalReviews ∧
      s1.positiveReviews = s2.positiveReviews ∧
      s1.neutralReviews = s2.neutralReviews ∧
      s1.negativeReviews = s2.negativeReviews ∧
      s1.lastCalculatedAt = t1 ∧ s2.lastCalculatedAt = t2 := by
  have e1 := runCalc_spec db a t1 h
  have h2 : a ∈ (runCalc false db a t1).agents := by
    rw [e1]; exact h
  have e2 := runCalc_spec (runCalc false db a t1) a t2 h2
  refine ⟨computeScore (db.metrics a) (db.reviews a) t1,
    computeScore (db.metrics a) (db.reviews a) t2, ?_, ?_,
    rfl, rfl, rfl, rfl, rfl, rfl, rfl, rfl, rfl, rfl⟩
  · rw [e1, upsertScore_scores_self]
  · rw [e2, e1, upsertScore_scores_self]
    rfl

/-- Witness for C9 at the concrete state `dbIdem` with times 1 and 2. -/
theorem C9_recalculationIdempotent_witness :
    ∃ s1 s2, (runCalc false dbIdem "a" 1).scores "a" = some s1 ∧
      (runCalc false (runCalc false dbIdem "a" 1) "a" 2).scores "a" = some s2 ∧
      s1.overallScore = s2.overallScore ∧
      s1.performanceScore = s2.performanceScore ∧
      s1.reliabilityScore = s2.reliabilityScore ∧
      s1.communityScore = s2.communityScore ∧
      s1.totalReviews = s2.totalReviews ∧
      s1.positiveReviews = s2.positiveReviews ∧
      s1.neutralReviews = s2.neutralReviews ∧
      s1.negativeReviews = s2.negativeReviews ∧
      s1.lastCalculatedAt = 1 ∧ s2.lastCalculatedAt = 2 :=
  C9_recalculationIdempotent dbIdem "a" 1 2 (by decide)

/-- C10: `calculateReputationScore` resolves successfully on every input — a
nonexistent agent takes the early silent return and a persistence fault is
caught and logged internally — so `recalculateAllReputationScores` counts
every agent as a success and its failure branch is unreachable:
`success = number of agents` and `failed = 0`. -/
theorem C10_calculateNeverRejects (fault : Bool) (db : DB) (a : String)
    (now : Nat) :
    (∃ db', calculateReputationScore fault db a now = Except.ok db') ∧
    (a ∉ db.agents →
      calculateReputationScore false db a now = Except.ok db) ∧
    (recalculateAllReputationScores fault db now).2.1 = db.agents.length ∧
    (recalculateAllReputationScores fault db now).2.2 = 0 := by
  refine ⟨calc_ok fault db a now, ?_, ?_, ?_⟩
  · intro hno
    unfold calculateReputationScore calcBody
    simp [hno]
  · unfold recalculateAllReputationScores
    rw [(recalcAll_fold fault now db.agents (db, 0, 0)).1]
    exact Nat.zero_add _
  · unfold recalculateAllReputationScores
    exact (recalcAll_fold fault now db.agents (db, 0, 0)).2

/-- Witness for C10 at the one-agent state `dbLazy10`, querying the
nonexistent agent `"b"`. -/
theorem C10_calculateNeverRejects_witness :
    (∃ db', calculateReputationScore true dbLazy10 "b" 0 = Except.ok db') ∧
    calculateReputationScore false dbLazy10 "b" 0 = Except.ok dbLazy10 ∧
    (recalculateAllReputationScores true dbLazy10 0).2.1 =
      dbLazy10.agents.length ∧
    (recalculateAllReputationScores true dbLazy10 0).2.2 = 0 :=
  ⟨(C10_calculateNeverRejects true dbLazy10 "b" 0).1,
    (C10_calculateNeverRejects true dbLazy10 "b" 0).2.1 (by decide),
    (C10_calculateNeverRejects true dbLazy10 "b" 0).2.2.1,
    (C10_calculateNeverRejects true dbLazy10 "b" 0).2.2.2⟩

/-- C2 counterexample: with agent `"a"` existing and holding a stale stored
score, a persistence fault during the synchronous explicit recalculation does
NOT surface to the waiting caller: the handler answers 200 with the stale
score components instead of a failure. -/
theorem C2_recalculateFaultSwallowed :
    (recalculateHandler true dbStale "a" 5).response =
      some { score := some (0.5, 0.5, 0.5, 0.5) } := by
  have hc : calculateReputationScore true dbStale "a" 5 = Except.ok dbStale :=
    calc_fault dbStale "a" 5
  unfold recalculateHandler
  rw [hc]
  rfl

/-- C2 (amended): an unexpected fault during score calculation never
propagates to any caller: it is caught and logged inside
`calculateReputationScore`. The asynchronous post-review trigger is
unaffected (the 201 review response is returned regardless of the fault);
the explicit recalculation request also responds with success, serving the
previously stored (stale, possibly null) score; the first-read lazy
computation is the only trigger whose caller sees a user-visible failure,
and only indirectly — a 404 Not Found because no score row was written. -/
theorem C2_computationFaultHandling (db : DB) (a : String) (now : Nat)
    (h : a ∈ db.agents) :
    (∀ fault rating,
      (submitReviewHandler fault db a rating none now).response =
        some { id := (db.reviews a).length, rating := rating,
               createdAt := now }) ∧
    ((recalculateHandler true db a now).response =
      some { score := (db.scores a).map (fun s =>
        (s.overallScore, s.performanceScore, s.reliabilityScore,
          s.communityScore)) }) ∧
    (db.scores a = none →
      getScoreHandler true db a now =
        HandlerResult.notFound "Agent not found") := by
  refine ⟨?_, ?_, ?_⟩
  · intro fault rating
    unfold submitReviewHandler submitReviewValidated
    simp [h, HandlerResult.response]
  · unfold recalculateHandler
    rw [calc_fault db a now]
    simp [h, HandlerResult.response]
  · intro hnone
    have hcalc := calc_fault db a now
    unfold getScoreHandler
    rw [hnone, hcalc]
    simp only [hnone]

/-- Witness for C2's amended theorem: a faulting review submission at
`dbStale` still answers 201; a faulting explicit recalculation at `dbStale`
answers with the stale components; a faulting lazy first read at `dbFresh`
answers 404. -/
theorem C2_computationFaultHandling_witness :
    ((submitReviewHandler true dbStale "a" Rating.POSITIVE none 5).response =
      some { id := 0, rating := Rating.POSITIVE, createdAt := 5 }) ∧
    ((recalculateHandler true dbStale "a" 5).response =
      some { score := some (0.5, 0.5, 0.5, 0.5) }) ∧
    (getScoreHandler true dbFresh "a" 5 =
      HandlerResult.notFound "Agent not found") :=
  ⟨(C2_computationFaultHandling dbStale "a" 5 (by decide)).1 true
      Rating.POSITIVE,
    (C2_computationFaultHandling dbStale "a" 5 (by decide)).2.1,
    (C2_computationFaultHandling dbFresh "a" 5 (by decide)).2.2 rfl⟩

end Reputation
